import Mathlib

set_option autoImplicit false

/-!
Verification development for the notification dispatch module of the
repository (NestJS notifications module: notifications.service.ts,
producers/notification.producer.ts, consumers/notification.consumer.ts,
consumers/notification-retry.processor.ts, config/notification.config.ts).

The TypeScript code is shallowly embedded: the loop-based
NotificationsService.send is modelled as a pure function from an adapter
behaviour oracle to the list of effects it performs (adapter invocations,
delivery-report saves, warnings), the switch-based service and the queue
consumer as Except-valued functions, and the Bull producer and the retry
sweeper as list transformers.
-/

namespace Notif

/-- Channels handled by the switch statements of both versions of
NotificationsService.send (the cases email, sms, whatsapp, slack, discord;
every other string falls into the default case). -/
def knownChannels : List String := ["email", "sms", "whatsapp", "slack", "discord"]

/-- Outcome oracle for the channel adapters: for a channel and the
invocation index within one processing of that channel (0 = first try in
the try block, 1 = the retry inside the catch block), none means the
adapter call resolves and some e means it rejects with error message e. -/
def Behavior : Type := String → Nat → Option String

/-- Status literal written by deliveryReportService.save: the code writes
the strings success and fail. -/
inductive DeliveryStatus where
  | success : DeliveryStatus
  | fail : DeliveryStatus
deriving Repr, DecidableEq

/-- One row handed to deliveryReportService.save by the loop-based send:
the object literal fields to, channel, message, status, meta, retryCount,
errorMessage. -/
structure DeliveryReportRow where
  recipient : String
  channel : String
  message : String
  status : DeliveryStatus
  meta : Option String
  retryCount : Nat
  errorMessage : Option String
deriving Repr, DecidableEq

/-- The NotificationPayload interface of notifications.service.ts:
to, message, optional subject, ordered channels list, optional meta. -/
structure NotificationPayload where
  recipient : String
  message : String
  subject : Option String
  channels : List String
  meta : Option String
deriving Repr, DecidableEq

/-- Observable effects of one run of the loop-based send. -/
inductive Event where
  | invoke : String → Nat → Event
  | save : DeliveryReportRow → Event
  | warn : String → Event
deriving Repr, DecidableEq

/-- One iteration of the for-of loop over channels in the loop-based
NotificationsService.send: for a known channel the switch invokes the
adapter; on resolve the success row (retryCount 0) is saved; on reject the
catch saves a fail row with retryCount 1 and the error message, retries the
same channel once, then saves either a success row with retryCount 1 or a
fail row with retryCount 2. The default case only logs a warning and
continues with the next channel. -/
def processChannelTrace (beh : Behavior) (recip msg : String) (meta : Option String)
    (c : String) : List Event :=
  if c ∈ knownChannels then
    Event.invoke c 0 ::
    match beh c 0 with
    | none => [Event.save ⟨recip, c, msg, DeliveryStatus.success, meta, 0, none⟩]
    | some e =>
      Event.save ⟨recip, c, msg, DeliveryStatus.fail, meta, 1, some e⟩ ::
      Event.invoke c 1 ::
      match beh c 1 with
      | none => [Event.save ⟨recip, c, msg, DeliveryStatus.success, meta, 1, none⟩]
      | some e2 => [Event.save ⟨recip, c, msg, DeliveryStatus.fail, meta, 2, some e2⟩]
  else [Event.warn ("Unknown channel: " ++ c)]

/-- The full effect trace of the loop-based send: the for-of loop runs the
body once per entry of payload.channels, in order, unconditionally. -/
def sendTrace (beh : Behavior) (p : NotificationPayload) : List Event :=
  p.channels.flatMap (processChannelTrace beh p.recipient p.message p.meta)

/-- The delivery-report rows saved during a trace, in order. -/
def savedRows (tr : List Event) : List DeliveryReportRow :=
  tr.filterMap fun e =>
    match e with
    | Event.save r => some r
    | _ => none

/-- The adapter invocations of a trace, in order. -/
def invokes (tr : List Event) : List (String × Nat) :=
  tr.filterMap fun e =>
    match e with
    | Event.invoke c k => some (c, k)
    | _ => none

/-- The rows the loop-based send appends to the delivery report store. -/
def send (beh : Behavior) (p : NotificationPayload) : List DeliveryReportRow :=
  savedRows (sendTrace beh p)

/-- Number of success rows in a list of report rows. -/
def successCount (rows : List DeliveryReportRow) : Nat :=
  (rows.filter fun r => r.status = DeliveryStatus.success).length

/-- An adapter behaviour where every call resolves. -/
def allOk : Behavior := fun _ _ => none

/-- An adapter behaviour where every call rejects with a timeout message. -/
def allFail : Behavior := fun _ _ => some "timeout"

/-- A JavaScript number restricted to what the producer computes: either
NaN (arithmetic on undefined) or an integer of milliseconds. -/
inductive JsNum where
  | nan : JsNum
  | num : Int → JsNum
deriving Repr, DecidableEq

/-- The expression scheduleAt?.getTime() - Date.now() of
NotificationProducer.scheduleNotification: optional chaining yields
undefined when scheduleAt is absent, and undefined minus a number is NaN;
otherwise it is plain integer subtraction of epoch milliseconds. -/
def jsSubOpt (scheduleAt : Option Int) (now : Int) : JsNum :=
  match scheduleAt with
  | none => JsNum.nan
  | some t => JsNum.num (t - now)

/-- The SendNotificationDto of dto/send-notification.dto.ts: channel,
recipient, message, optional templateId, optional scheduleAt (modelled as
epoch milliseconds). It has no idempotency key and no attempt counter. -/
structure SendNotificationDto where
  channel : String
  recipient : String
  message : String
  templateId : Option String
  scheduleAt : Option Int
deriving Repr, DecidableEq

/-- The Bull job options passed by NotificationProducer: optional delay
(absent in queueNotification, the computed JsNum in scheduleNotification),
attempts, and the numeric backoff, a fixed delay in milliseconds. -/
structure BullJobOpts where
  delayMs : Option JsNum
  attempts : Nat
  backoffMs : Nat
deriving Repr, DecidableEq

/-- A job added to the notifications queue: the job name and data given to
notificationQueue.add plus its options. -/
structure QueuedJob where
  name : String
  data : SendNotificationDto
  opts : BullJobOpts
deriving Repr, DecidableEq

/-- NotificationProducer.queueNotification: unconditionally adds one
send-notification job with attempts 3 and backoff 5000; no delay option
and no deduplication of any kind. -/
def queueNotification (queue : List QueuedJob) (data : SendNotificationDto) :
    List QueuedJob :=
  queue ++ [⟨"send-notification", data, ⟨none, 3, 5000⟩⟩]

/-- NotificationProducer.scheduleNotification: adds one send-notification
job whose delay is scheduleAt?.getTime() - Date.now(), with attempts 3 and
backoff 5000; there is no guard on scheduleAt being present or in the
future. -/
def scheduleNotification (now : Int) (queue : List QueuedJob)
    (data : SendNotificationDto) : List QueuedJob :=
  queue ++ [⟨"send-notification", data, ⟨some (jsSubOpt data.scheduleAt now), 3, 5000⟩⟩]

/-- Bull semantics for a numeric backoff option: every retry of the job
waits the same fixed number of milliseconds, whatever the retry index. -/
def bullRetryDelay (opts : BullJobOpts) (_retryIdx : Nat) : Nat :=
  opts.backoffMs

/-- Bull semantics for job retry after a thrown handler: the job is
re-run while the number of attempts already made is below the configured
attempts option. -/
def bullWillRetry (attemptsMade : Nat) (opts : BullJobOpts) : Bool :=
  attemptsMade < opts.attempts

/-- The switch-based NotificationsService.send (the unified dispatcher
version): the five known channels route to private stub senders that only
log and always resolve; the default case throws Unsupported channel. -/
def sendSwitch (data : SendNotificationDto) : Except String Unit :=
  if data.channel ∈ knownChannels then Except.ok ()
  else Except.error "Unsupported channel"

/-- NotificationConsumer.handleNotification: awaits the switch-based send
in a try block; the catch logs the failure and rethrows it so that Bull
retries the job. -/
def handleNotification (data : SendNotificationDto) : Except String Unit :=
  match sendSwitch data with
  | Except.ok u => Except.ok u
  | Except.error e => Except.error e

/-- The expression parseInt(env, 10) || fallback used throughout
notification.config.ts, taken at the parsed numeric value of the
environment string: a missing variable parses to NaN, which is falsy, and
a parse result of 0 is also falsy, so both yield the fallback. -/
def parseIntOr (parsed : Option Nat) (fallback : Nat) : Nat :=
  match parsed with
  | none => fallback
  | some n => if n = 0 then fallback else n

/-- The retry.attempts entry of notification.config.ts:
parseInt(process.env.NOTIFY_RETRY_ATTEMPTS, 10) || 2. -/
def retryAttemptsConfig (parsed : Option Nat) : Nat :=
  parseIntOr parsed 2

/-- The notification.retryThreshold entry of config/notification.config.ts
(the retry-processor config): parseInt of NOTIFICATION_RETRY_THRESHOLD
with fallback 3. -/
def retryThresholdConfig (parsed : Option Nat) : Nat :=
  parseIntOr parsed 3

/-- A failed Bull job as seen by the retry sweeper: its id and the number
of attempts already made. -/
structure FailedJob where
  id : Nat
  attemptsMade : Nat
deriving Repr, DecidableEq

/-- NotificationRetryProcessor.processFailedJobs: iterates over
getFailed(); a job whose attemptsMade is below maxRetries is retried via
job.retry() (re-activating that same job, creating nothing new), any other
job is only logged as permanently failed. The result lists the ids of the
jobs on which retry() was called, in order. -/
def processFailedJobs (maxRetries : Nat) (failed : List FailedJob) : List Nat :=
  failed.filterMap fun j =>
    if j.attemptsMade < maxRetries then some j.id else none

/-- One dispatch appended to an existing delivery report store: the
loop-based send only ever calls deliveryReportService.save, so its effect
on the store is to append its rows; it reads nothing from the store. -/
def dispatchWithHistory (beh : Behavior) (history : List DeliveryReportRow)
    (p : NotificationPayload) : List DeliveryReportRow :=
  history ++ send beh p

/-- Exception behaviour of one loop iteration of the loop-based send: the
switch and the success save sit in a try block whose catch handles any
adapter rejection, and the retry sits in a nested try whose catch also
returns normally, so every branch yields rows rather than an error. -/
def processChannelE (beh : Behavior) (recip msg : String) (meta : Option String)
    (c : String) : Except String (List DeliveryReportRow) :=
  if c ∈ knownChannels then
    match beh c 0 with
    | none => Except.ok [⟨recip, c, msg, DeliveryStatus.success, meta, 0, none⟩]
    | some e =>
      match beh c 1 with
      | none => Except.ok [⟨recip, c, msg, DeliveryStatus.fail, meta, 1, some e⟩,
                           ⟨recip, c, msg, DeliveryStatus.success, meta, 1, none⟩]
      | some e2 => Except.ok [⟨recip, c, msg, DeliveryStatus.fail, meta, 1, some e⟩,
                              ⟨recip, c, msg, DeliveryStatus.fail, meta, 2, some e2⟩]
  else Except.ok []

/-- Exception behaviour of the whole loop-based send: the loop runs each
iteration in sequence and an iteration that threw would abort the rest. -/
def sendE (beh : Behavior) (p : NotificationPayload) :
    Except String (List DeliveryReportRow) :=
  p.channels.foldlM
    (fun acc c => (processChannelE beh p.recipient p.message p.meta c).map (acc ++ ·))
    []

/-- Payload with the single channel email, used at concrete inputs. -/
def payE : NotificationPayload := ⟨"u@example.com", "hi", none, ["email"], none⟩

/-- Payload with the channel list email, sms, used at concrete inputs. -/
def payES : NotificationPayload := ⟨"u@example.com", "hi", none, ["email", "sms"], none⟩

/-- A dto for the email channel, used at concrete inputs. -/
def dtoE : SendNotificationDto := ⟨"email", "u@example.com", "hi", none, none⟩

/-- A dto for an unregistered channel, used at concrete inputs. -/
def dtoPigeon : SendNotificationDto := ⟨"pigeon", "u@example.com", "hi", none, none⟩

theorem savedRows_append (a b : List Event) :
    savedRows (a ++ b) = savedRows a ++ savedRows b := by
  simp [savedRows]

theorem invokes_append (a b : List Event) :
    invokes (a ++ b) = invokes a ++ invokes b := by
  simp [invokes]

theorem sendTrace_mk_cons (beh : Behavior) (r m : String) (s meta : Option String)
    (c : String) (cs : List String) :
    sendTrace beh ⟨r, m, s, c :: cs, meta⟩ =
      processChannelTrace beh r m meta c ++ sendTrace beh ⟨r, m, s, cs, meta⟩ := by
  simp [sendTrace]

theorem processChannelTrace_known_has_row (beh : Behavior) (r m : String)
    (meta : Option String) (c : String) (hc : c ∈ knownChannels) :
    ∃ row ∈ savedRows (processChannelTrace beh r m meta c), row.channel = c := by
  unfold processChannelTrace
  rw [if_pos hc]
  cases h0 : beh c 0 with
  | none =>
    refine ⟨⟨r, c, m, DeliveryStatus.success, meta, 0, none⟩, ?_, rfl⟩
    simp [savedRows]
  | some e =>
    cases h1 : beh c 1 with
    | none =>
      refine ⟨⟨r, c, m, DeliveryStatus.fail, meta, 1, some e⟩, ?_, rfl⟩
      simp [savedRows]
    | some e2 =>
      refine ⟨⟨r, c, m, DeliveryStatus.fail, meta, 1, some e⟩, ?_, rfl⟩
      simp [savedRows]

theorem mem_processChannelTrace_channel (beh : Behavior) (r m : String)
    (meta : Option String) (c : String) (row : DeliveryReportRow)
    (hmem : row ∈ savedRows (processChannelTrace beh r m meta c)) :
    row.channel = c := by
  unfold processChannelTrace at hmem
  by_cases hc : c ∈ knownChannels
  · rw [if_pos hc] at hmem
    cases h0 : beh c 0 with
    | none =>
      rw [h0] at hmem
      simp [savedRows] at hmem
      subst hmem
      rfl
    | some e =>
      rw [h0] at hmem
      cases h1 : beh c 1 with
      | none =>
        rw [h1] at hmem
        simp [savedRows] at hmem
        rcases hmem with h | h <;> (subst h; rfl)
      | some e2 =>
        rw [h1] at hmem
        simp [savedRows] at hmem
        rcases hmem with h | h <;> (subst h; rfl)
  · rw [if_neg hc] at hmem
    simp [savedRows] at hmem

/-- Claim C1: the claim states that once a channel succeeds, no further
channel of the same request is attempted and no record for a later channel
exists. The code falsifies it: with two channels that both succeed, the
trace invokes the sms adapter after the email success was saved, and a
record for the later channel sms follows the email success record. -/
theorem send_stops_after_success_counterexample :
    send allOk payES =
      [⟨"u@example.com", "email", "hi", DeliveryStatus.success, none, 0, none⟩,
       ⟨"u@example.com", "sms", "hi", DeliveryStatus.success, none, 0, none⟩] ∧
    sendTrace allOk payES =
      [Event.invoke "email" 0,
       Event.save ⟨"u@example.com", "email", "hi", DeliveryStatus.success, none, 0, none⟩,
       Event.invoke "sms" 0,
       Event.save ⟨"u@example.com", "sms", "hi", DeliveryStatus.success, none, 0, none⟩] := by
  constructor <;> rfl

/-- Claim C1 (amended): the dispatch loop attempts every known channel of
the ordered list unconditionally; a success on an earlier channel does not
stop later channels, so each known listed channel has at least one attempt
record in the output, whatever the adapter outcomes are. -/
theorem send_attempts_every_known_channel (beh : Behavior) (p : NotificationPayload)
    (c : String) (hmem : c ∈ p.channels) (hknown : c ∈ knownChannels) :
    ∃ row ∈ send beh p, row.channel = c := by
  obtain ⟨r, m, s, cs, meta⟩ := p
  simp only [send] at *
  induction cs with
  | nil => simp at hmem
  | cons d ds ih =>
    rw [sendTrace_mk_cons, savedRows_append]
    rcases List.mem_cons.mp hmem with h | h
    · subst h
      obtain ⟨row, hrow, hch⟩ := processChannelTrace_known_has_row beh r m meta c hknown
      exact ⟨row, List.mem_append_left _ hrow, hch⟩
    · obtain ⟨row, hrow, hch⟩ := ih h
      exact ⟨row, List.mem_append_right _ hrow, hch⟩

/-- Witness for the amended claim C1 at a concrete input: the sms channel
of the two-channel payload is attempted even though email succeeds. -/
theorem send_attempts_every_known_channel_witness :
    ("sms" ∈ payES.channels ∧ "sms" ∈ knownChannels) ∧
      ∃ row ∈ send allOk payES, row.channel = "sms" :=
  ⟨⟨by decide, by decide⟩,
    send_attempts_every_known_channel allOk payES "sms" (by decide) (by decide)⟩

/-- Claim C2: the claim states that duplicate submissions with one
idempotency key yield one job chain, and that the dispatcher checks for an
existing SUCCESS record before the first attempt and acks without invoking
any adapter. The code falsifies it: submitting the same dto twice enqueues
two independent jobs, and a dispatch whose store already holds a SUCCESS
row for the same recipient and message still invokes the email adapter and
appends a second success row. -/
theorem idempotency_counterexample :
    (queueNotification (queueNotification [] dtoE) dtoE).length = 2 ∧
    dispatchWithHistory allOk
        [⟨"u@example.com", "email", "hi", DeliveryStatus.success, none, 0, none⟩] payE =
      [⟨"u@example.com", "email", "hi", DeliveryStatus.success, none, 0, none⟩,
       ⟨"u@example.com", "email", "hi", DeliveryStatus.success, none, 0, none⟩] ∧
    invokes (sendTrace allOk payE) = [("email", 0)] := by
  refine ⟨rfl, rfl, rfl⟩

/-- Claim C2 (amended): there is no idempotency mechanism: the dto carries
no idempotency key, every producer submission appends one more job, and
the rows a dispatch appends to the store do not depend on the existing
store contents, so no prior SUCCESS record is consulted. -/
theorem no_idempotency_gate (queue : List QueuedJob) (data : SendNotificationDto)
    (h1 h2 : List DeliveryReportRow) (beh : Behavior) (p : NotificationPayload) :
    (queueNotification queue data).length = queue.length + 1 ∧
    (dispatchWithHistory beh h1 p).drop h1.length =
      (dispatchWithHistory beh h2 p).drop h2.length := by
  constructor
  · simp [queueNotification]
  · simp [dispatchWithHistory]

/-- Claim C3: the claim states that at most one SUCCESS record ever exists
per request. The code falsifies it: one request over channels email and sms
with both adapters succeeding writes two SUCCESS rows, and a queue
redelivery of the same single-channel job (a second dispatch appended to
the same store) leaves two SUCCESS rows for that request as well. -/
theorem at_most_one_success_counterexample :
    successCount (send allOk payES) = 2 ∧
    successCount (dispatchWithHistory allOk (send allOk payE) payE) = 2 := by
  constructor <;> rfl

/-- Claim C3 (amended): within a single dispatch each listed channel
contributes at most one SUCCESS row, so one dispatch writes at most one
SUCCESS row per channel-list entry; the bound over redeliveries or over
several channels is the number of processed entries, not one. -/
theorem success_bounded_per_channel (beh : Behavior) (p : NotificationPayload) :
    (∀ c, successCount (savedRows (processChannelTrace beh p.recipient p.message p.meta c)) ≤ 1) ∧
    successCount (send beh p) ≤ p.channels.length := by
  have per : ∀ c, successCount (savedRows
      (processChannelTrace beh p.recipient p.message p.meta c)) ≤ 1 := by
    intro c
    unfold processChannelTrace
    by_cases hc : c ∈ knownChannels
    · rw [if_pos hc]
      cases beh c 0 with
      | none => simp [savedRows, successCount]
      | some e =>
        cases beh c 1 with
        | none => simp [savedRows, successCount]
        | some e2 => simp [savedRows, successCount]
    · rw [if_neg hc]
      simp [savedRows, successCount]
  refine ⟨per, ?_⟩
  obtain ⟨r, m, s, cs, meta⟩ := p
  simp only [send] at *
  induction cs with
  | nil => simp [sendTrace, savedRows, successCount]
  | cons d ds ih =>
    rw [sendTrace_mk_cons, savedRows_append]
    have hsplit : successCount (savedRows (processChannelTrace beh r m meta d) ++
        savedRows (sendTrace beh ⟨r, m, s, ds, meta⟩)) =
        successCount (savedRows (processChannelTrace beh r m meta d)) +
        successCount (savedRows (sendTrace beh ⟨r, m, s, ds, meta⟩)) := by
      simp [successCount]
    rw [hsplit]
    have := per d
    simp only [List.length_cons]
    omega

theorem invokes_processChannelTrace_length_le (beh : Behavior) (r m : String)
    (meta : Option String) (c : String) :
    (invokes (processChannelTrace beh r m meta c)).length ≤ 2 := by
  unfold processChannelTrace
  by_cases hc : c ∈ knownChannels
  · rw [if_pos hc]
    cases beh c 0 with
    | none => simp [invokes]
    | some e =>
      cases beh c 1 with
      | none => simp [invokes]
      | some e2 => simp [invokes]
  · rw [if_neg hc]
    simp [invokes]

/-- Claim C4: the claim states that an unknown channel is classified as a
permanent configuration failure with an attempt record written, the job
acked terminally, and no retry and no failover. The code falsifies it: the
loop-based send only warns, writes no record for the unknown channel, and
proceeds to the next listed channel; the switch-based send throws
Unsupported channel, the consumer rethrows it, and under the producer
options (attempts 3) the queue retries the job after the first failure. -/
theorem unknown_channel_counterexample :
    processChannelTrace allOk "u@example.com" "hi" none "pigeon" =
      [Event.warn "Unknown channel: pigeon"] ∧
    send allOk ⟨"u@example.com", "hi", none, ["pigeon", "email"], none⟩ =
      [⟨"u@example.com", "email", "hi", DeliveryStatus.success, none, 0, none⟩] ∧
    handleNotification dtoPigeon = Except.error "Unsupported channel" ∧
    bullWillRetry 1 ⟨none, 3, 5000⟩ = true := by
  refine ⟨rfl, rfl, rfl, rfl⟩

/-- Claim C4 (amended): an unknown channel produces no delivery attempt
record and no adapter invocation; the loop-based send merely skips it (the
remaining channels are still processed), while the switch-based send
raises Unsupported channel, which the consumer rethrows, so a job enqueued
by the producer is retried by the queue after its first failure. -/
theorem unknown_channel_skipped_or_rethrown (beh : Behavior) (recip msg : String)
    (meta : Option String) (c : String) (data : SendNotificationDto)
    (hc : c ∉ knownChannels) (hd : data.channel ∉ knownChannels) :
    savedRows (processChannelTrace beh recip msg meta c) = [] ∧
    invokes (processChannelTrace beh recip msg meta c) = [] ∧
    handleNotification data = Except.error "Unsupported channel" ∧
    ∀ job ∈ queueNotification [] data, bullWillRetry 1 job.opts = true := by
  refine ⟨?_, ?_, ?_, ?_⟩
  · unfold processChannelTrace
    rw [if_neg hc]
    simp [savedRows]
  · unfold processChannelTrace
    rw [if_neg hc]
    simp [invokes]
  · unfold handleNotification sendSwitch
    rw [if_neg hd]
  · intro job hj
    simp only [queueNotification, List.nil_append, List.mem_singleton] at hj
    subst hj
    rfl

/-- Witness for the amended claim C4 at the concrete unknown channel
pigeon. -/
theorem unknown_channel_skipped_or_rethrown_witness :
    ("pigeon" ∉ knownChannels ∧ dtoPigeon.channel ∉ knownChannels) ∧
      (savedRows (processChannelTrace allOk "u@example.com" "hi" none "pigeon") = [] ∧
       invokes (processChannelTrace allOk "u@example.com" "hi" none "pigeon") = [] ∧
       handleNotification dtoPigeon = Except.error "Unsupported channel" ∧
       ∀ job ∈ queueNotification [] dtoPigeon, bullWillRetry 1 job.opts = true) :=
  ⟨⟨by decide, by decide⟩,
    unknown_channel_skipped_or_rethrown allOk "u@example.com" "hi" none "pigeon"
      dtoPigeon (by decide) (by decide)⟩

/-- Claim C5: the claim states that a transient failure below the retry
ceiling leads to a re-enqueued job with attempt+1 and
notBefore = now + base * multiplier^(attempt-1), capped. The code
falsifies it: after the failed first attempt the very next effects of the
same dispatch are the fail save and the immediate second invocation — no
job is enqueued and no delay passes — and the only queue-level retry
configuration is the constant 5000 ms Bull backoff of the producer, not an
exponential schedule. -/
theorem backoff_counterexample :
    sendTrace allFail payE =
      [Event.invoke "email" 0,
       Event.save ⟨"u@example.com", "email", "hi", DeliveryStatus.fail, none, 1, some "timeout"⟩,
       Event.invoke "email" 1,
       Event.save ⟨"u@example.com", "email", "hi", DeliveryStatus.fail, none, 2, some "timeout"⟩] ∧
    queueNotification [] dtoE = [⟨"send-notification", dtoE, ⟨none, 3, 5000⟩⟩] ∧
    bullRetryDelay ⟨none, 3, 5000⟩ 1 = 5000 ∧
    bullRetryDelay ⟨none, 3, 5000⟩ 2 = 5000 := by
  refine ⟨rfl, rfl, rfl, rfl⟩

/-- Claim C5 (amended): when the first attempt of a known channel fails,
the retry is performed immediately within the same dispatch (the fail save
and the second invocation directly follow the first invocation in the
trace), and every job the producer enqueues carries the constant 5000 ms
Bull backoff, whose per-retry delays are equal and hence non-decreasing. -/
theorem retry_inline_and_fixed_backoff (beh : Behavior) (recip msg : String)
    (meta : Option String) (c e : String) (data : SendNotificationDto) (jdx kdx : Nat)
    (hc : c ∈ knownChannels) (h0 : beh c 0 = some e) :
    (∃ rest, processChannelTrace beh recip msg meta c =
        Event.invoke c 0 ::
        Event.save ⟨recip, c, msg, DeliveryStatus.fail, meta, 1, some e⟩ ::
        Event.invoke c 1 :: rest) ∧
    (∀ job ∈ queueNotification [] data,
        bullRetryDelay job.opts jdx = 5000 ∧
        bullRetryDelay job.opts jdx ≤ bullRetryDelay job.opts kdx) := by
  constructor
  · unfold processChannelTrace
    rw [if_pos hc, h0]
    exact ⟨_, rfl⟩
  · intro job hj
    simp only [queueNotification, List.nil_append, List.mem_singleton] at hj
    subst hj
    exact ⟨rfl, le_refl _⟩

/-- Witness for the amended claim C5 at the concrete always-failing email
channel and a concrete enqueued dto. -/
theorem retry_inline_and_fixed_backoff_witness :
    ("email" ∈ knownChannels ∧ allFail "email" 0 = some "timeout") ∧
      ((∃ rest, processChannelTrace allFail "u@example.com" "hi" none "email" =
          Event.invoke "email" 0 ::
          Event.save ⟨"u@example.com", "email", "hi", DeliveryStatus.fail, none, 1, some "timeout"⟩ ::
          Event.invoke "email" 1 :: rest) ∧
       (∀ job ∈ queueNotification [] dtoE,
          bullRetryDelay job.opts 1 = 5000 ∧
          bullRetryDelay job.opts 1 ≤ bullRetryDelay job.opts 2)) :=
  ⟨⟨by decide, rfl⟩,
    retry_inline_and_fixed_backoff allFail "u@example.com" "hi" none "email" "timeout"
      dtoE 1 2 (by decide) rfl⟩

/-- Claim C6: the claim states termination within sum of maxAttempts
adapter invocations and that a single always-transiently-failing channel
ends with status EXHAUSTED after exactly maxAttempts attempt records. The
code falsifies it: with the retry ceiling configured to 1 (retry.attempts
from NOTIFY_RETRY_ATTEMPTS=1), the dispatch of a single-channel request
still makes 2 adapter invocations and writes 2 records, exceeding the
claimed bound and differing from the claimed count, and the final record
has status fail — the data model has no EXHAUSTED status at all. -/
theorem termination_counterexample :
    retryAttemptsConfig (some 1) = 1 ∧
    (invokes (sendTrace allFail payE)).length = 2 ∧
    (send allFail payE).length = 2 ∧
    (send allFail payE).getLast? =
      some ⟨"u@example.com", "email", "hi", DeliveryStatus.fail, none, 2, some "timeout"⟩ := by
  refine ⟨rfl, rfl, rfl, rfl⟩

/-- Claim C6 (amended): every dispatch terminates after at most two
adapter invocations per listed channel (the hard-coded single retry), and
a known channel whose adapter fails both times yields exactly the two fail
records, the last with retryCount 2 — the configured retry.attempts value
is never consulted by the dispatch loop. -/
theorem termination_bound (beh : Behavior) (p : NotificationPayload)
    (recip msg : String) (s meta : Option String) (c e0 e1 : String)
    (hc : c ∈ knownChannels) (h0 : beh c 0 = some e0) (h1 : beh c 1 = some e1) :
    (invokes (sendTrace beh p)).length ≤ 2 * p.channels.length ∧
    send beh ⟨recip, msg, s, [c], meta⟩ =
      [⟨recip, c, msg, DeliveryStatus.fail, meta, 1, some e0⟩,
       ⟨recip, c, msg, DeliveryStatus.fail, meta, 2, some e1⟩] := by
  constructor
  · obtain ⟨r, m, subj, cs, meta2⟩ := p
    show (invokes (sendTrace beh ⟨r, m, subj, cs, meta2⟩)).length ≤ 2 * cs.length
    induction cs with
    | nil => simp [sendTrace, invokes]
    | cons d ds ih =>
      rw [sendTrace_mk_cons, invokes_append]
      have hd := invokes_processChannelTrace_length_le beh r m meta2 d
      simp only [List.length_append, List.length_cons]
      omega
  · unfold send sendTrace
    simp only [List.flatMap_cons, List.flatMap_nil, List.append_nil]
    unfold processChannelTrace
    rw [if_pos hc, h0, h1]
    rfl

/-- Witness for the amended claim C6 at the always-failing email channel. -/
theorem termination_bound_witness :
    ("email" ∈ knownChannels ∧ allFail "email" 0 = some "timeout" ∧
      allFail "email" 1 = some "timeout") ∧
      ((invokes (sendTrace allFail payES)).length ≤ 2 * payES.channels.length ∧
       send allFail ⟨"u@example.com", "hi", none, ["email"], none⟩ =
        [⟨"u@example.com", "email", "hi", DeliveryStatus.fail, none, 1, some "timeout"⟩,
         ⟨"u@example.com", "email", "hi", DeliveryStatus.fail, none, 2, some "timeout"⟩]) :=
  ⟨⟨by decide, rfl, rfl⟩,
    termination_bound allFail payES "u@example.com" "hi" none none "email"
      "timeout" "timeout" (by decide) rfl rfl⟩

theorem processChannelTrace_known_rows_shape (beh : Behavior) (r m : String)
    (meta : Option String) (c : String) (hc : c ∈ knownChannels) :
    ∃ row rows, savedRows (processChannelTrace beh r m meta c) = row :: rows ∧
      row.channel = c := by
  unfold processChannelTrace
  rw [if_pos hc]
  cases h0 : beh c 0 with
  | none =>
    refine ⟨⟨r, c, m, DeliveryStatus.success, meta, 0, none⟩, [], ?_, rfl⟩
    simp [savedRows]
  | some e =>
    cases h1 : beh c 1 with
    | none =>
      refine ⟨⟨r, c, m, DeliveryStatus.fail, meta, 1, some e⟩,
        [⟨r, c, m, DeliveryStatus.success, meta, 1, none⟩], ?_, rfl⟩
      simp [savedRows]
    | some e2 =>
      refine ⟨⟨r, c, m, DeliveryStatus.fail, meta, 1, some e⟩,
        [⟨r, c, m, DeliveryStatus.fail, meta, 2, some e2⟩], ?_, rfl⟩
      simp [savedRows]

/-- A behaviour where only the email adapter rejects, used at concrete
inputs. -/
def emailFails : Behavior := fun c _ => if c = "email" then some "timeout" else none

/-- Claim C7: given the ordered channels [A, B, C] where the A adapter
fails transiently on both its attempts, the attempt record right after the
last A record belongs to channel B, and no record after the A records
belongs to A again. Confirmed for a single dispatch of the loop-based
send: the loop processes channels strictly in list order. -/
theorem failover_ordering (beh : Behavior) (recip msg : String) (s meta : Option String)
    (A B C e0 e1 : String)
    (hA : A ∈ knownChannels) (hB : B ∈ knownChannels)
    (hAB : A ≠ B) (hAC : A ≠ C)
    (h0 : beh A 0 = some e0) (h1 : beh A 1 = some e1) :
    (send beh ⟨recip, msg, s, [A, B, C], meta⟩).take 2 =
      [⟨recip, A, msg, DeliveryStatus.fail, meta, 1, some e0⟩,
       ⟨recip, A, msg, DeliveryStatus.fail, meta, 2, some e1⟩] ∧
    Option.map DeliveryReportRow.channel
        ((send beh ⟨recip, msg, s, [A, B, C], meta⟩).drop 2).head? = some B ∧
    ∀ row ∈ (send beh ⟨recip, msg, s, [A, B, C], meta⟩).drop 2, row.channel ≠ A := by
  have hA2 : savedRows (processChannelTrace beh recip msg meta A) =
      [⟨recip, A, msg, DeliveryStatus.fail, meta, 1, some e0⟩,
       ⟨recip, A, msg, DeliveryStatus.fail, meta, 2, some e1⟩] := by
    unfold processChannelTrace
    rw [if_pos hA, h0, h1]
    rfl
  have hsend : send beh ⟨recip, msg, s, [A, B, C], meta⟩ =
      savedRows (processChannelTrace beh recip msg meta A) ++
      (savedRows (processChannelTrace beh recip msg meta B) ++
       savedRows (processChannelTrace beh recip msg meta C)) := by
    have hnil : sendTrace beh ⟨recip, msg, s, [], meta⟩ = [] := rfl
    unfold send
    rw [sendTrace_mk_cons, sendTrace_mk_cons, sendTrace_mk_cons, hnil,
        List.append_nil, savedRows_append, savedRows_append]
  obtain ⟨rowB, rowsB, hBshape, hBch⟩ :=
    processChannelTrace_known_rows_shape beh recip msg meta B hB
  refine ⟨?_, ?_, ?_⟩
  · rw [hsend, hA2]
    rfl
  · rw [hsend, hA2, hBshape]
    show some rowB.channel = some B
    rw [hBch]
  · rw [hsend, hA2]
    intro row hrow
    have hrow2 : row ∈ savedRows (processChannelTrace beh recip msg meta B) ++
        savedRows (processChannelTrace beh recip msg meta C) := hrow
    rcases List.mem_append.mp hrow2 with h | h
    · rw [mem_processChannelTrace_channel beh recip msg meta B row h]
      exact fun hEq => hAB hEq.symm
    · rw [mem_processChannelTrace_channel beh recip msg meta C row h]
      exact fun hEq => hAC hEq.symm

/-- Witness for claim C7 at concrete channels email, sms, whatsapp with an
adapter behaviour that rejects only email. -/
theorem failover_ordering_witness :
    ("email" ∈ knownChannels ∧ "sms" ∈ knownChannels ∧
      ("email" : String) ≠ "sms" ∧ ("email" : String) ≠ "whatsapp" ∧
      emailFails "email" 0 = some "timeout" ∧ emailFails "email" 1 = some "timeout") ∧
      ((send emailFails ⟨"u@example.com", "hi", none, ["email", "sms", "whatsapp"], none⟩).take 2 =
        [⟨"u@example.com", "email", "hi", DeliveryStatus.fail, none, 1, some "timeout"⟩,
         ⟨"u@example.com", "email", "hi", DeliveryStatus.fail, none, 2, some "timeout"⟩] ∧
       Option.map DeliveryReportRow.channel
        ((send emailFails ⟨"u@example.com", "hi", none, ["email", "sms", "whatsapp"], none⟩).drop 2).head? =
          some "sms" ∧
       ∀ row ∈ (send emailFails
          ⟨"u@example.com", "hi", none, ["email", "sms", "whatsapp"], none⟩).drop 2,
        row.channel ≠ "email") :=
  ⟨⟨by decide, by decide, by decide, by decide, rfl, rfl⟩,
    failover_ordering emailFails "u@example.com" "hi" none none
      "email" "sms" "whatsapp" "timeout" "timeout"
      (by decide) (by decide) (by decide) (by decide) rfl rfl⟩

theorem processChannelE_eq (beh : Behavior) (r m : String) (meta : Option String)
    (c : String) :
    processChannelE beh r m meta c =
      Except.ok (savedRows (processChannelTrace beh r m meta c)) := by
  unfold processChannelE processChannelTrace
  by_cases hc : c ∈ knownChannels
  · rw [if_pos hc, if_pos hc]
    cases beh c 0 with
    | none => rfl
    | some e =>
      cases beh c 1 with
      | none => rfl
      | some e2 => rfl
  · rw [if_neg hc, if_neg hc]
    rfl

theorem sendE_foldl (beh : Behavior) (r m : String) (s meta : Option String)
    (cs : List String) (acc : List DeliveryReportRow) :
    List.foldlM (fun acc c => (processChannelE beh r m meta c).map (acc ++ ·)) acc cs =
      Except.ok (acc ++ savedRows (sendTrace beh ⟨r, m, s, cs, meta⟩)) := by
  induction cs generalizing acc with
  | nil =>
    have hnil : sendTrace beh ⟨r, m, s, [], meta⟩ = [] := rfl
    rw [hnil]
    show pure acc = Except.ok (acc ++ savedRows [])
    rw [show savedRows [] = [] from rfl, List.append_nil]
    rfl
  | cons d ds ih =>
    rw [List.foldlM_cons, processChannelE_eq, sendTrace_mk_cons, savedRows_append]
    have hmap : (Except.ok (savedRows (processChannelTrace beh r m meta d)) :
        Except String (List DeliveryReportRow)).map (acc ++ ·) =
        Except.ok (acc ++ savedRows (processChannelTrace beh r m meta d)) := rfl
    rw [hmap]
    have hbind : (Except.ok (acc ++ savedRows (processChannelTrace beh r m meta d)) :
        Except String (List DeliveryReportRow)) >>=
          (fun b => List.foldlM (fun acc c => (processChannelE beh r m meta c).map (acc ++ ·)) b ds) =
        List.foldlM (fun acc c => (processChannelE beh r m meta c).map (acc ++ ·))
          (acc ++ savedRows (processChannelTrace beh r m meta d)) ds := rfl
    rw [hbind, ih]
    rw [List.append_assoc]

/-- Claim C8: the claim states that per-notification failures — including
an unknown channel — are recovered locally and never raised to the caller.
The code falsifies it: the switch-based send raises the per-notification
failure Unsupported channel, and the consumer rethrows exactly that error
to its caller, the queue worker. -/
theorem propagation_counterexample :
    sendSwitch dtoPigeon = Except.error "Unsupported channel" ∧
    handleNotification dtoPigeon = Except.error "Unsupported channel" := by
  exact ⟨rfl, rfl⟩

/-- Claim C8 (amended): the loop-based send recovers every channel-adapter
failure locally — for any adapter behaviour it returns normally with its
rows and never propagates an error — but the switch-based send does raise
the unknown-channel failure, and the consumer rethrows whatever error the
service raised instead of recovering it. -/
theorem local_recovery_and_consumer_rethrow (beh : Behavior) (p : NotificationPayload)
    (data : SendNotificationDto) (e : String) (hd : sendSwitch data = Except.error e) :
    sendE beh p = Except.ok (send beh p) ∧
    handleNotification data = Except.error e := by
  constructor
  · obtain ⟨r, m, s, cs, meta⟩ := p
    show List.foldlM _ [] cs = _
    rw [sendE_foldl beh r m s meta cs []]
    rfl
  · unfold handleNotification
    rw [hd]

/-- Witness for the amended claim C8: the always-failing behaviour over
two channels is fully recovered, while the pigeon dto error is rethrown. -/
theorem local_recovery_and_consumer_rethrow_witness :
    sendSwitch dtoPigeon = Except.error "Unsupported channel" ∧
      (sendE allFail payES = Except.ok (send allFail payES) ∧
       handleNotification dtoPigeon = Except.error "Unsupported channel") :=
  ⟨rfl, local_recovery_and_consumer_rethrow allFail payES dtoPigeon
    "Unsupported channel" rfl⟩

theorem processFailedJobs_subset_ids (m : Nat) (l : List FailedJob) (x : Nat)
    (hx : x ∈ processFailedJobs m l) : x ∈ l.map FailedJob.id := by
  unfold processFailedJobs at hx
  obtain ⟨j, hj, hval⟩ := List.mem_filterMap.mp hx
  by_cases hlt : j.attemptsMade < m
  · rw [if_pos hlt] at hval
    exact List.mem_map.mpr ⟨j, hj, Option.some.inj hval⟩
  · rw [if_neg hlt] at hval
    cases hval

/-- Claim C9: each failed job whose attemptsMade is below the configured
threshold is retried exactly once per sweeper run, and no failed job at or
above the threshold is ever retried. Confirmed: processFailedJobs calls
job.retry() exactly on the jobs below the threshold, re-activating the
existing job rather than creating a new one. -/
theorem sweeper_retries_exactly_below_threshold (maxRetries : Nat)
    (failed : List FailedJob) (j : FailedJob)
    (hnd : (failed.map FailedJob.id).Nodup) (hj : j ∈ failed) :
    (processFailedJobs maxRetries failed).count j.id =
      if j.attemptsMade < maxRetries then 1 else 0 := by
  induction failed with
  | nil => cases hj
  | cons a l ih =>
    rw [List.map_cons, List.nodup_cons] at hnd
    obtain ⟨hna, hndl⟩ := hnd
    have hpf : processFailedJobs maxRetries (a :: l) =
        (if a.attemptsMade < maxRetries then [a.id] else []) ++
          processFailedJobs maxRetries l := by
      unfold processFailedJobs
      rw [List.filterMap_cons]
      by_cases hlt : a.attemptsMade < maxRetries
      · rw [if_pos hlt, if_pos hlt]
        rfl
      · rw [if_neg hlt, if_neg hlt]
        rfl
    rcases List.mem_cons.mp hj with hEq | hmem
    · subst hEq
      have hzero : (processFailedJobs maxRetries l).count j.id = 0 := by
        rw [List.count_eq_zero]
        intro hmem2
        exact hna (processFailedJobs_subset_ids maxRetries l j.id hmem2)
      rw [hpf]
      by_cases hlt : j.attemptsMade < maxRetries
      · rw [if_pos hlt, if_pos hlt, List.singleton_append, List.count_cons]
        simp [hzero]
      · rw [if_neg hlt, if_neg hlt]
        simpa using hzero
    · have hne : j.id ≠ a.id := by
        intro hEq
        exact hna (hEq ▸ List.mem_map.mpr ⟨j, hmem, rfl⟩)
      rw [hpf]
      by_cases hlt : a.attemptsMade < maxRetries
      · rw [if_pos hlt, List.singleton_append, List.count_cons, ih hndl hmem]
        simp [Ne.symm hne]
      · rw [if_neg hlt, List.nil_append]
        exact ih hndl hmem

/-- Witness for claim C9 at a concrete failed-job list: job 1 with zero
attempts is retried once under threshold 3, and the theorem also applies
to job 2 with five attempts, which is not retried. -/
theorem sweeper_retries_exactly_below_threshold_witness :
    (([⟨1, 0⟩, ⟨2, 5⟩] : List FailedJob).map FailedJob.id).Nodup ∧
      (⟨1, 0⟩ : FailedJob) ∈ ([⟨1, 0⟩, ⟨2, 5⟩] : List FailedJob) ∧
      (processFailedJobs 3 [⟨1, 0⟩, ⟨2, 5⟩]).count 1 =
        if (0 : Nat) < 3 then 1 else 0 :=
  ⟨by decide, by decide,
    sweeper_retries_exactly_below_threshold 3 [⟨1, 0⟩, ⟨2, 5⟩] ⟨1, 0⟩
      (by decide) (by decide)⟩

/-- Claim C10: scheduleNotification computes the Bull delay as
scheduleAt?.getTime() - Date.now() with no guard. Confirmed: an absent
scheduleAt makes the enqueued delay NaN, and a scheduleAt in the past
makes it negative, so the job is dispatched immediately instead of being
held until the scheduled time. -/
theorem scheduleNotification_unguarded_delay (now t : Int) (queue : List QueuedJob)
    (d1 d2 : SendNotificationDto)
    (h1 : d1.scheduleAt = none) (h2 : d2.scheduleAt = some t) (hp : t < now) :
    (scheduleNotification now queue d1).getLast? =
      some ⟨"send-notification", d1, ⟨some JsNum.nan, 3, 5000⟩⟩ ∧
    (scheduleNotification now queue d2).getLast? =
      some ⟨"send-notification", d2, ⟨some (JsNum.num (t - now)), 3, 5000⟩⟩ ∧
    t - now < 0 := by
  refine ⟨?_, ?_, by omega⟩
  · unfold scheduleNotification
    rw [h1, List.getLast?_concat]
    rfl
  · unfold scheduleNotification
    rw [h2, List.getLast?_concat]
    rfl

/-- A dto scheduled in the past, used at concrete inputs. -/
def dtoSched : SendNotificationDto := ⟨"email", "u@example.com", "hi", none, some 500⟩

/-- Witness for claim C10 at concrete times: now 1000, scheduleAt 500 on
one dto and absent on the other. -/
theorem scheduleNotification_unguarded_delay_witness :
    (dtoE.scheduleAt = none ∧ dtoSched.scheduleAt = some 500 ∧ (500 : Int) < 1000) ∧
      ((scheduleNotification 1000 [] dtoE).getLast? =
        some ⟨"send-notification", dtoE, ⟨some JsNum.nan, 3, 5000⟩⟩ ∧
       (scheduleNotification 1000 [] dtoSched).getLast? =
        some ⟨"send-notification", dtoSched, ⟨some (JsNum.num (500 - 1000)), 3, 5000⟩⟩ ∧
       (500 : Int) - 1000 < 0) :=
  ⟨⟨rfl, rfl, by decide⟩,
    scheduleNotification_unguarded_delay 1000 500 [] dtoE dtoSched rfl rfl (by decide)⟩

end Notif
